import Mathlib

/-!
Shallow embedding of `src/market_maker.py`, a single-market quoting bot that
keeps at most one resting limit order, alternating between a buy (accumulate)
and a sell (reduce) side.  Python floats are modelled as rationals; values
that may fail `float(...)` conversion or be non-finite are modelled by
`PyVal`.  Stateful code is modelled by explicit state passing; transport
outcomes (order placement / cancellation acks) are oracle booleans.
-/

namespace MarketMaker

/-- Trading sides, the Python strings `"buy"` / `"sell"`. -/
inductive Side
  | buy
  | sell
deriving DecidableEq

/-- Static fallback spread: `SPREAD = 0.035 / 100.0`. -/
def SPREAD : ℚ := 35 / 100000

/-- Static fallback order amount: `BASE_AMOUNT = 0.047`. -/
def BASE_AMOUNT : ℚ := 47 / 1000

/-- `CAPITAL_USAGE_PERCENT = 0.99`. -/
def CAPITAL_USAGE_PERCENT : ℚ := 99 / 100

/-- `SAFETY_MARGIN_PERCENT = 0.01`. -/
def SAFETY_MARGIN_PERCENT : ℚ := 1 / 100

/-- `AVELLANEDA_REFRESH_INTERVAL = 900` seconds. -/
def AVELLANEDA_REFRESH_INTERVAL : ℚ := 900

/-- A Python value as fed to `float(...)`: a finite number, `nan`, `inf`,
`-inf`, or something `float()` rejects (including `None` for a missing
key, which raises `TypeError`). -/
inductive PyVal
  | num (q : ℚ)
  | nan
  | inf
  | neginf
  | notNum
deriving DecidableEq

/-- Python `float(v)`: fails (raises, caught by the handlers) exactly on
values that are not convertible; `nan` and infinities convert fine. -/
def pyFloat : PyVal → Option PyVal
  | .notNum => none
  | v => some v

/-- Python `v > 0` on a float value (`nan > 0` is `False`, `inf > 0` is
`True`). -/
def pyGtZero : PyVal → Bool
  | .num q => decide (0 < q)
  | .inf => true
  | _ => false

/-- The capital sub-cache: globals `available_capital` and
`portfolio_value`, both `None` until the first accepted update. -/
structure CapitalState where
  available_capital : Option PyVal
  portfolio_value : Option PyVal
deriving DecidableEq

/-- `on_user_stats_update` (src/market_maker.py:193-208).  `accountMatches`
is the `int(account_id) == ACCOUNT_INDEX` guard; `ab` and `pv` are the
reported `available_balance` and `portfolio_value` fields (a missing field
is reported as `num 0` via the `.get(..., 0)` default).  A `float()` failure
raises `ValueError`/`TypeError`, which the handler catches, leaving the
cache untouched. -/
def on_user_stats_update (accountMatches : Bool) (ab pv : PyVal)
    (st : CapitalState) : CapitalState :=
  if accountMatches = false then st
  else
    match pyFloat ab, pyFloat pv with
    | some a, some p =>
        if pyGtZero a ∧ pyGtZero p then ⟨some a, some p⟩ else st
    | _, _ => st

/-- The `limit_orders` object of a parameter file: the values found at keys
`delta_a` and `delta_b` (`notNum` models an absent key, since
`float(None)` raises). -/
structure LimitOrdersVal where
  delta_a : PyVal
  delta_b : PyVal
deriving DecidableEq

/-- A successfully JSON-decoded parameter document: its Python truthiness
(`if not data`) and its `limit_orders` member when present and a dict. -/
structure JsonDoc where
  truthy : Bool
  limit_orders : Option LimitOrdersVal
deriving DecidableEq

/-- Outcome of trying to open and JSON-decode one candidate path. -/
inductive FileRead
  | missing
  | unreadable
  | badJson
  | ok (d : JsonDoc)
deriving DecidableEq

/-- Validation of `delta_a`/`delta_b` (src/market_maker.py:381-390):
`float()` both, then require both finite and non-negative. -/
def parseDeltas (da db : PyVal) : Option (ℚ × ℚ) :=
  match da, db with
  | .num qa, .num qb => if 0 ≤ qa ∧ 0 ≤ qb then some (qa, qb) else none
  | _, _ => none

/-- Result of scanning the ordered candidate list
(src/market_maker.py:360-370): `FileNotFoundError` continues to the next
candidate; a decode error (`return False`) or any other read exception
(escapes to the outer handler) aborts the whole load; the first opened
document otherwise wins. -/
inductive ScanResult
  | aborted
  | notFound
  | found (d : JsonDoc)
deriving DecidableEq

/-- Scan the candidate paths in order. -/
def scanCandidates : List FileRead → ScanResult
  | [] => .notFound
  | .missing :: rest => scanCandidates rest
  | .unreadable :: _ => .aborted
  | .badJson :: _ => .aborted
  | .ok d :: _ => .found d

/-- The parameter cache: globals `avellaneda_params` and
`last_avellaneda_update`. -/
structure ParamsCache where
  params : Option JsonDoc
  lastUpdate : ℚ
deriving DecidableEq

/-- `load_avellaneda_parameters` (src/market_maker.py:341-406) as a state
transformer: given the contents of the candidate paths, the cache and the
current time, it returns the boolean result and the new cache.  A fresh
cache short-circuits; otherwise the cache is cleared up front and only
re-populated when a document passes every validation step. -/
def load_avellaneda_parameters (files : List FileRead) (st : ParamsCache)
    (now : ℚ) : Bool × ParamsCache :=
  if st.params.isSome ∧ now - st.lastUpdate < AVELLANEDA_REFRESH_INTERVAL then
    (true, st)
  else
    let cleared : ParamsCache := ⟨none, st.lastUpdate⟩
    match scanCandidates files with
    | .aborted => (false, cleared)
    | .notFound => (false, cleared)
    | .found d =>
        if d.truthy = false then (false, cleared)
        else
          match d.limit_orders with
          | none => (false, cleared)
          | some lo =>
              match parseDeltas lo.delta_a lo.delta_b with
              | none => (false, cleared)
              | some _ => (true, ⟨some d, now⟩)

/-- `calculate_order_price` (src/market_maker.py:408-419).  `deltas` is the
outcome of `load_avellaneda_parameters` together with the cached document:
`some (delta_a, delta_b)` when the load succeeded with a valid document,
`none` otherwise; `requireParams` is the `REQUIRE_PARAMS` flag. -/
def calculate_order_price (deltas : Option (ℚ × ℚ)) (requireParams : Bool)
    (mid_price : ℚ) (side : Side) : Option ℚ :=
  match deltas with
  | some (da, db) =>
      some (if side = Side.buy then mid_price - db else mid_price + da)
  | none =>
      if requireParams then none
      else
        some (if side = Side.buy then mid_price * (1 - SPREAD)
              else mid_price * (1 + SPREAD))

/-- `calculate_dynamic_base_amount` (src/market_maker.py:321-339).
`useDynamicSizing` is the `USE_DYNAMIC_SIZING` flag; `available_capital` is
`None` until the capital stream delivers; the Python guard
`if current_mid_price and current_mid_price > 0` rejects both a missing
(falsy `None`) and a non-positive mid. -/
def calculate_dynamic_base_amount (useDynamicSizing : Bool)
    (available_capital : Option ℚ) (current_mid_price : Option ℚ) : ℚ :=
  if useDynamicSizing = false then BASE_AMOUNT
  else
    match available_capital with
    | none => BASE_AMOUNT
    | some cap =>
        if cap ≤ 0 then BASE_AMOUNT
        else
          let usable_capital := cap * (1 - SAFETY_MARGIN_PERCENT)
          let order_capital := usable_capital * CAPITAL_USAGE_PERCENT
          match current_mid_price with
          | none => BASE_AMOUNT
          | some mid =>
              if 0 < mid then max (order_capital / mid) (1 / 1000)
              else BASE_AMOUNT

/-- Sell-side sizing inside the loop (src/market_maker.py:553-561):
sell the whole inventory when its notional value reaches $15, otherwise
size 0 (skip the cycle). -/
def sell_base_amt (position_size mid : ℚ) : ℚ :=
  if 0 < position_size then
    if 15 ≤ position_size * mid then position_size else 0
  else 0

/-- Size chosen by the loop for the current side
(src/market_maker.py:550-561). -/
def loop_base_amt (side : Side) (useDynamicSizing : Bool)
    (capital : Option ℚ) (mid position_size : ℚ) : ℚ :=
  if side = Side.buy then
    calculate_dynamic_base_amount useDynamicSizing capital (some mid)
  else sell_base_amt position_size mid

/-- Result of `cancel_order` (src/market_maker.py:448-467): the boolean
return, the recorded outstanding orders afterwards, and the order id that
appears only in the log line. -/
structure CancelResult where
  success : Bool
  orders : List Nat
  loggedOrderId : Nat
deriving DecidableEq

/-- `cancel_order` (src/market_maker.py:448-467): despite its name it calls
`cancel_all_orders`; on success every recorded outstanding order is
cleared (`current_order_id = None`), on failure the record is untouched.
`transportOk` is the oracle for the transport ack. -/
def cancel_order (order_id : Nat) (transportOk : Bool)
    (orders : List Nat) : CancelResult :=
  if transportOk then ⟨true, [], order_id⟩ else ⟨false, orders, order_id⟩

/-- `place_order` (src/market_maker.py:421-446): on transport success the
order id is recorded (`current_order_id = order_id`), on failure nothing
is recorded. -/
def place_order (transportOk : Bool) (order_id : Nat)
    (orders : List Nat) : Bool × List Nat :=
  if transportOk then (true, order_id :: orders) else (false, orders)

/-- `price_changed` (src/market_maker.py:528): true when no mid was quoted
yet, or the relative move of the current mid from the last quoted mid
exceeds 0.1%. -/
def price_changed (last_mid_price : Option ℚ) (current_mid_price : ℚ) : Bool :=
  match last_mid_price with
  | none => true
  | some l => decide (|current_mid_price - l| / l > 1 / 1000)

/-- The side-flip decision at the reconciliation point
(src/market_maker.py:585-597), evaluated against the reconciled position
and the mid price of the iteration (`position_value_usd` is 0 when the mid
is falsy). -/
def decide_next_side (side : Side) (position_size mid : ℚ) : Side :=
  let position_value_usd : ℚ := if mid ≠ 0 then position_size * mid else 0
  if side = Side.buy ∧ 0 < position_size then Side.sell
  else if side = Side.sell ∧ |position_size| < 1 / 1000000000 then Side.buy
  else if side = Side.sell ∧ 0 < position_size ∧ position_value_usd < 15 then
    Side.buy
  else side

/-- The mutable controller state: recorded outstanding orders
(`current_order_id`, a list so that "at most one" is a provable invariant
rather than a typing artifact), `last_mid_price`, and `order_side`. -/
structure LoopState where
  orders : List Nat
  lastMid : Option ℚ
  side : Side
deriving DecidableEq

/-- Environment of one loop iteration: the early-exit paths (unhealthy
stream, no mid price, no-quote) bundled as `skipCycle`, the mid price read
at the top, transport oracles, sizing inputs, the fresh client order id,
and the positions observed at sizing time and at the reconciliation
checkpoint. -/
structure LoopEnv where
  skipCycle : Bool
  mid : ℚ
  cancel1Ok : Bool
  useDynamicSizing : Bool
  capital : Option ℚ
  posAtSize : ℚ
  placeOk : Bool
  cancel2Ok : Bool
  newId : Nat
  posAtReconcile : ℚ
deriving DecidableEq

/-- Step 4 of the loop (src/market_maker.py:543-546): cancel the
outstanding order iff one is recorded and the price changed.  Returns the
state afterwards and whether a cancel was issued. -/
def phase_cancel (st : LoopState) (mid : ℚ) (cancelOk : Bool) :
    LoopState × Bool :=
  match st.orders with
  | [] => (st, false)
  | oid :: _ =>
      if price_changed st.lastMid mid then
        ({ st with orders := (cancel_order oid cancelOk st.orders).orders },
         true)
      else (st, false)

/-- Steps 7-8 of the loop (src/market_maker.py:579-597): the unconditional
timeout cancel of any still-outstanding order, then the side-flip decision
on the reconciled position. -/
def reconcile (s : LoopState) (pos mid : ℚ) (cancelOk : Bool) : LoopState :=
  let s3 : LoopState :=
    match s.orders with
    | [] => s
    | oid :: _ => { s with orders := (cancel_order oid cancelOk s.orders).orders }
  { s3 with side := decide_next_side s3.side pos mid }

/-- One iteration of `market_making_loop` (src/market_maker.py:513-599).
A failed placement `continue`s (skips reconciliation); a zero size falls
through to the reconciliation sleep; `last_mid_price` is updated only on a
successful placement. -/
def loopIter (st : LoopState) (e : LoopEnv) : LoopState :=
  if e.skipCycle then st
  else
    let s1 := (phase_cancel st e.mid e.cancel1Ok).1
    match s1.orders with
    | [] =>
        let amt := loop_base_amt s1.side e.useDynamicSizing e.capital e.mid
          e.posAtSize
        if 0 < amt then
          let pr := place_order e.placeOk e.newId []
          if pr.1 then
            reconcile ⟨pr.2, some e.mid, s1.side⟩ e.posAtReconcile e.mid
              e.cancel2Ok
          else s1
        else reconcile s1 e.posAtReconcile e.mid e.cancel2Ok
    | _ :: _ => reconcile s1 e.posAtReconcile e.mid e.cancel2Ok

/-- States reachable by the control loop.  The loop may start with one
order already recorded (the optional startup liquidation order placed by
`close_long_position`), so any state with at most one recorded order is
admitted as initial. -/
inductive Reachable : LoopState → Prop
  | init (s : LoopState) : s.orders.length ≤ 1 → Reachable s
  | step (s : LoopState) (e : LoopEnv) : Reachable s → Reachable (loopIter s e)

/-- A file content that is invalid in one of the ways claim C3 lists:
invalid JSON, a document lacking a usable `limit_orders` object, or
`delta_a`/`delta_b` failing validation (negative, NaN, infinite, or
non-numeric). -/
def invalidContent (f : FileRead) : Prop :=
  f = FileRead.badJson ∨
  ∃ d, f = FileRead.ok d ∧
    (d.limit_orders = none ∨
     ∃ lo, d.limit_orders = some lo ∧ parseDeltas lo.delta_a lo.delta_b = none)

/-- A concrete valid parameter document: `delta_a = 0.3`, `delta_b = 0.2`. -/
def goodDoc : JsonDoc := ⟨true, some ⟨PyVal.num (3 / 10), PyVal.num (2 / 10)⟩⟩

/-- A concrete decodable but invalid parameter document: `delta_b` is
negative, so validation rejects it. -/
def badDoc : JsonDoc := ⟨true, some ⟨PyVal.num (3 / 10), PyVal.num (-2 / 10)⟩⟩

/-- Claim C1: at the reconciliation point, Buy flips to Sell iff the
reconciled position is strictly positive; Sell flips to Buy iff
|position| < 1e-9 (treated as fully sold) or the position is positive with
notional value position·mid below the $15 threshold; in every other case
the current side is kept. -/
theorem decide_next_side_spec (position_size mid : ℚ) :
    (decide_next_side Side.buy position_size mid =
      if 0 < position_size then Side.sell else Side.buy) ∧
    (decide_next_side Side.sell position_size mid =
      if |position_size| < 1 / 1000000000 ∨
          (0 < position_size ∧ position_size * mid < 15) then Side.buy
      else Side.sell) := by
  constructor
  · by_cases hp : 0 < position_size <;> simp [decide_next_side, hp]
  · by_cases h9 : |position_size| < 1 / 1000000000 <;>
      by_cases hp : 0 < position_size <;>
      by_cases hm : mid = 0 <;>
      simp [decide_next_side, h9, hp, hm] <;>
      split_ifs <;> tauto

/-- Claim C2: with valid loaded parameters the quote is mid − delta_b for
Buy and mid + delta_a for Sell; with no valid parameters the pricing
returns no-quote under strict mode and otherwise the static symmetric
fallback mid·(1 ∓ 0.00035). -/
theorem calculate_order_price_spec (mid da db : ℚ) (req : Bool) :
    calculate_order_price (some (da, db)) req mid Side.buy = some (mid - db) ∧
    calculate_order_price (some (da, db)) req mid Side.sell = some (mid + da) ∧
    calculate_order_price none true mid Side.buy = none ∧
    calculate_order_price none true mid Side.sell = none ∧
    calculate_order_price none false mid Side.buy
      = some (mid * (1 - 35 / 100000)) ∧
    calculate_order_price none false mid Side.sell
      = some (mid * (1 + 35 / 100000)) := by
  refine ⟨rfl, rfl, rfl, rfl, ?_, ?_⟩ <;> simp [calculate_order_price, SPREAD]

/-- Claim C3: a parameter file with invalid JSON, a missing `limit_orders`
object, or invalid deltas makes the loader return failure with the cache
fully cleared (never partially applied); pricing with an empty cache then
yields no-quote under strict mode and the static fallback otherwise. -/
theorem invalid_params_clear_cache (f : FileRead) (st : ParamsCache) (now : ℚ)
    (hf : invalidContent f)
    (hstale : ¬(st.params.isSome = true ∧
      now - st.lastUpdate < AVELLANEDA_REFRESH_INTERVAL)) :
    load_avellaneda_parameters [f] st now = (false, ⟨none, st.lastUpdate⟩) ∧
    (∀ (mid : ℚ) (side : Side), calculate_order_price none true mid side = none) ∧
    (∀ mid : ℚ, calculate_order_price none false mid Side.buy
      = some (mid * (1 - SPREAD))) := by
  refine ⟨?_, fun mid side => rfl, fun mid => rfl⟩
  rcases hf with hf | ⟨d, rfl, hd⟩
  · subst hf
    simp [load_avellaneda_parameters, hstale, scanCandidates]
  · rcases hd with hd | ⟨lo, hlo, hpd⟩
    · cases ht : d.truthy <;>
        simp [load_avellaneda_parameters, hstale, scanCandidates, ht, hd]
    · cases ht : d.truthy <;>
        simp [load_avellaneda_parameters, hstale, scanCandidates, ht, hlo, hpd]

/-- Witness for claim C3 at a concrete invalid file. -/
theorem invalid_params_clear_cache_witness :
    load_avellaneda_parameters [FileRead.badJson] ⟨none, 0⟩ 0
      = (false, ⟨none, 0⟩) :=
  (invalid_params_clear_cache FileRead.badJson ⟨none, 0⟩ 0
    (Or.inl rfl) (by simp)).1

/-- Helper: a cancel either clears the recorded orders or leaves them
untouched. -/
theorem cancel_order_orders_cases (oid : Nat) (ok : Bool) (L : List Nat) :
    (cancel_order oid ok L).orders = [] ∨ (cancel_order oid ok L).orders = L := by
  cases ok <;> simp [cancel_order]

/-- Helper: the price-change cancel phase either clears the recorded orders
or leaves them untouched. -/
theorem phase_cancel_orders_cases (st : LoopState) (mid : ℚ) (ok : Bool) :
    (phase_cancel st mid ok).1.orders = [] ∨
    (phase_cancel st mid ok).1.orders = st.orders := by
  rcases h : st.orders with _ | ⟨a, L⟩
  · simp [phase_cancel, h]
  · simp only [phase_cancel, h]
    split_ifs with hc
    · rcases cancel_order_orders_cases a ok (a :: L) with h1 | h1 <;>
        simp [h1, h]
    · simp [h]

/-- Helper: the side field does not change the orders of `reconcile`, which
either clears them or leaves them untouched. -/
theorem reconcile_orders_cases (s : LoopState) (pos mid : ℚ) (ok : Bool) :
    (reconcile s pos mid ok).orders = [] ∨
    (reconcile s pos mid ok).orders = s.orders := by
  rcases h : s.orders with _ | ⟨a, L⟩
  · simp [reconcile, h]
  · simp only [reconcile, h]
    rcases cancel_order_orders_cases a ok (a :: L) with h1 | h1 <;> simp [h1, h]

/-- Helper: one loop iteration preserves the at-most-one-order bound. -/
theorem loopIter_orders_length (st : LoopState) (e : LoopEnv)
    (h : st.orders.length ≤ 1) : (loopIter st e).orders.length ≤ 1 := by
  unfold loopIter
  split_ifs with hskip
  · exact h
  · have hs1 := phase_cancel_orders_cases st e.mid e.cancel1Ok
    rcases h1 : (phase_cancel st e.mid e.cancel1Ok).1.orders with _ | ⟨a, L⟩
    · simp only [h1]
      split_ifs with hamt hpr
      · cases hplace : e.placeOk
        · rw [hplace] at hpr
          simp [place_order] at hpr
        · simp only [place_order, hplace, if_true]
          rcases reconcile_orders_cases
              ⟨[e.newId], some e.mid, (phase_cancel st e.mid e.cancel1Ok).1.side⟩
              e.posAtReconcile e.mid e.cancel2Ok with h2 | h2 <;>
            simp [h2]
      · simp [h1]
      · rcases reconcile_orders_cases (phase_cancel st e.mid e.cancel1Ok).1
            e.posAtReconcile e.mid e.cancel2Ok with h2 | h2 <;>
          simp [h2, h1]
    · simp only [h1]
      rcases reconcile_orders_cases (phase_cancel st e.mid e.cancel1Ok).1
          e.posAtReconcile e.mid e.cancel2Ok with h2 | h2
      · simp [h2]
      · rw [h2, h1]
        rcases hs1 with hs1 | hs1
        · rw [h1] at hs1; cases hs1
        · rw [h1] at hs1
          rw [← hs1] at h
          exact h

/-- Claim C4: every state reachable by the control loop records at most one
outstanding order — placement only happens from the empty record, a
successful placement records exactly the new id, and a successful cancel
clears the record. -/
theorem at_most_one_outstanding_order (s : LoopState) (h : Reachable s) :
    s.orders.length ≤ 1 := by
  induction h with
  | init s hs => exact hs
  | step s e _ ih => exact loopIter_orders_length s e ih

/-- Witness for claim C4 at the initial idle state. -/
theorem at_most_one_outstanding_order_witness :
    (⟨[], none, Side.buy⟩ : LoopState).orders.length ≤ 1 :=
  at_most_one_outstanding_order ⟨[], none, Side.buy⟩
    (Reachable.init ⟨[], none, Side.buy⟩ (by simp))

/-- Claim C5: a capital/portfolio update for the tracked account is applied
iff both reported values convert with `float()` and are strictly positive;
in every other case both cached fields keep their previous values. -/
theorem user_stats_update_spec (ab pv : PyVal) (st : CapitalState) :
    ((∃ a p, pyFloat ab = some a ∧ pyFloat pv = some p ∧
        pyGtZero a = true ∧ pyGtZero p = true) →
      on_user_stats_update true ab pv st = ⟨pyFloat ab, pyFloat pv⟩) ∧
    (¬(∃ a p, pyFloat ab = some a ∧ pyFloat pv = some p ∧
        pyGtZero a = true ∧ pyGtZero p = true) →
      on_user_stats_update true ab pv st = st) := by
  constructor
  · rintro ⟨a, p, ha, hp, hga, hgp⟩
    simp [on_user_stats_update, ha, hp, hga, hgp]
  · intro hno
    rcases ha : pyFloat ab with _ | a
    · simp [on_user_stats_update, ha]
    · rcases hp : pyFloat pv with _ | p
      · simp [on_user_stats_update, ha, hp]
      · have : ¬(pyGtZero a = true ∧ pyGtZero p = true) := by
          intro ⟨hga, hgp⟩
          exact hno ⟨a, p, ha, hp, hga, hgp⟩
        simp only [on_user_stats_update, ha, hp]
        simp [this]

/-- Witness for claim C5: a positive update is applied. -/
theorem user_stats_update_spec_witness :
    on_user_stats_update true (PyVal.num 5) (PyVal.num 7) ⟨none, none⟩
      = ⟨some (PyVal.num 5), some (PyVal.num 7)⟩ :=
  (user_stats_update_spec (PyVal.num 5) (PyVal.num 7) ⟨none, none⟩).1
    ⟨PyVal.num 5, PyVal.num 7, rfl, rfl, by norm_num [pyGtZero],
      by norm_num [pyGtZero]⟩

/-- Claim C6: with an order outstanding and a last quoted mid recorded, the
iteration issues the price-change cancel iff the new mid differs from the
last quoted mid by more than the relative 0.1% threshold. -/
theorem cancel_threshold_spec (st : LoopState) (oid : Nat) (rest : List Nat)
    (l mid : ℚ) (cancelOk : Bool)
    (ho : st.orders = oid :: rest) (hl : st.lastMid = some l) :
    ((phase_cancel st mid cancelOk).2 = true ↔ |mid - l| / l > 1 / 1000) := by
  simp only [phase_cancel, ho, hl, price_changed]
  split_ifs with hc
  · simpa using hc
  · simpa using hc

/-- Witness for claim C6: last mid 100, new mid 100.2 (0.2%) cancels; new
mid 100.05 (0.05%) does not. -/
theorem cancel_threshold_spec_witness :
    ((phase_cancel ⟨[7], some 100, Side.sell⟩ (501 / 5) true).2 = true) ∧
    ((phase_cancel ⟨[7], some 100, Side.sell⟩ (2001 / 20) true).2 = false) := by
  constructor
  · refine (cancel_threshold_spec ⟨[7], some 100, Side.sell⟩ 7 [] 100 (501 / 5)
      true rfl rfl).mpr ?_
    rw [abs_of_pos (by norm_num : (0 : ℚ) < 501 / 5 - 100)]
    norm_num
  · have h := cancel_threshold_spec ⟨[7], some 100, Side.sell⟩ 7 [] 100
      (2001 / 20) true rfl rfl
    have hn : ¬((phase_cancel ⟨[7], some 100, Side.sell⟩ (2001 / 20) true).2
        = true) := by
      intro ht
      have hP := h.mp ht
      rw [abs_of_pos (by norm_num : (0 : ℚ) < 2001 / 20 - 100)] at hP
      norm_num at hP
    simpa using hn

/-- Claim C7: with dynamic sizing enabled, known strictly positive capital
and a strictly positive mid, the accumulating-side size is
max(capital·(1 − 0.01)·0.99 / mid, 0.001); in every fallback case (sizing
disabled, capital unknown or non-positive, mid missing or non-positive)
the static BASE_AMOUNT is returned. -/
theorem dynamic_base_amount_spec :
    (∀ cap mid : ℚ, 0 < cap → 0 < mid →
      calculate_dynamic_base_amount true (some cap) (some mid)
        = max (cap * (1 - 1 / 100) * (99 / 100) / mid) (1 / 1000)) ∧
    (∀ c m, calculate_dynamic_base_amount false c m = BASE_AMOUNT) ∧
    (∀ (u : Bool) m, calculate_dynamic_base_amount u none m = BASE_AMOUNT) ∧
    (∀ (u : Bool) m (cap : ℚ), cap ≤ 0 →
      calculate_dynamic_base_amount u (some cap) m = BASE_AMOUNT) ∧
    (∀ (u : Bool) (cap : ℚ),
      calculate_dynamic_base_amount u (some cap) none = BASE_AMOUNT) ∧
    (∀ (u : Bool) (cap mid : ℚ), mid ≤ 0 →
      calculate_dynamic_base_amount u (some cap) (some mid) = BASE_AMOUNT) := by
  refine ⟨?_, ?_, ?_, ?_, ?_, ?_⟩
  · intro cap mid hc hm
    simp [calculate_dynamic_base_amount, not_le.mpr hc, hm,
      SAFETY_MARGIN_PERCENT, CAPITAL_USAGE_PERCENT]
  · intro c m
    simp [calculate_dynamic_base_amount]
  · intro u m
    cases u <;> simp [calculate_dynamic_base_amount]
  · intro u m cap hc
    cases u <;> cases m <;>
      simp [calculate_dynamic_base_amount, hc]
  · intro u cap
    cases u <;> by_cases hc : cap ≤ 0 <;>
      simp [calculate_dynamic_base_amount, hc]
  · intro u cap mid hm
    cases u <;> by_cases hc : cap ≤ 0 <;>
      simp [calculate_dynamic_base_amount, hc, not_lt.mpr hm]

/-- Witness for claim C7: capital 1000 and mid 100 size to 9.801 units. -/
theorem dynamic_base_amount_spec_witness :
    calculate_dynamic_base_amount true (some 1000) (some 100) = 9801 / 1000 := by
  have h := dynamic_base_amount_spec.1 1000 100 (by norm_num) (by norm_num)
  rw [h]
  rw [max_eq_left (by norm_num)]
  norm_num

/-- Claim C8 counterexample: the second candidate alone is readable and
valid (the loader succeeds on it), yet with an invalid-JSON candidate ahead
of it — or a decodable candidate whose parameters fail validation ahead of
it — the loader fails and clears the cache instead of skipping to the
valid one — invalid candidates are not skipped, contrary to the claim. -/
theorem first_candidate_counterexample :
    (load_avellaneda_parameters [FileRead.ok goodDoc] ⟨none, 0⟩ 1000).1 = true ∧
    load_avellaneda_parameters [FileRead.badJson, FileRead.ok goodDoc]
      ⟨none, 0⟩ 1000 = (false, ⟨none, 0⟩) ∧
    load_avellaneda_parameters [FileRead.ok badDoc, FileRead.ok goodDoc]
      ⟨none, 0⟩ 1000 = (false, ⟨none, 0⟩) := by
  refine ⟨?_, ?_, ?_⟩
  · norm_num [load_avellaneda_parameters, scanCandidates, goodDoc, parseDeltas]
  · norm_num [load_avellaneda_parameters, scanCandidates]
  · norm_num [load_avellaneda_parameters, scanCandidates, badDoc, parseDeltas]

/-- Claim C8 (amended): the loader skips only missing candidates; the first
non-missing candidate decides the outcome and later candidates are never
tried — an unreadable or invalid-JSON candidate aborts the load with
failure and an empty cache, a decodable document that fails validation
(falsy, missing limit_orders, or invalid deltas) likewise fails the load
with an empty cache regardless of what follows it, and a readable document
with valid parameters wins. -/
theorem candidate_scan_amended (st : ParamsCache) (now : ℚ)
    (rest : List FileRead)
    (hstale : ¬(st.params.isSome = true ∧
      now - st.lastUpdate < AVELLANEDA_REFRESH_INTERVAL)) :
    (load_avellaneda_parameters (FileRead.missing :: rest) st now
      = load_avellaneda_parameters rest st now) ∧
    (load_avellaneda_parameters (FileRead.badJson :: rest) st now
      = (false, ⟨none, st.lastUpdate⟩)) ∧
    (load_avellaneda_parameters (FileRead.unreadable :: rest) st now
      = (false, ⟨none, st.lastUpdate⟩)) ∧
    (∀ d : JsonDoc,
      (d.truthy = false ∨ d.limit_orders = none ∨
        ∃ lo, d.limit_orders = some lo ∧
          parseDeltas lo.delta_a lo.delta_b = none) →
      load_avellaneda_parameters (FileRead.ok d :: rest) st now
        = (false, ⟨none, st.lastUpdate⟩)) ∧
    (∀ (d : JsonDoc) (lo : LimitOrdersVal) (p : ℚ × ℚ),
      d.truthy = true → d.limit_orders = some lo →
      parseDeltas lo.delta_a lo.delta_b = some p →
      load_avellaneda_parameters (FileRead.ok d :: rest) st now
        = (true, ⟨some d, now⟩)) := by
  refine ⟨?_, ?_, ?_, ?_, ?_⟩
  · simp [load_avellaneda_parameters, hstale, scanCandidates]
  · simp [load_avellaneda_parameters, hstale, scanCandidates]
  · simp [load_avellaneda_parameters, hstale, scanCandidates]
  · intro d hd
    rcases hd with ht | hd
    · simp [load_avellaneda_parameters, hstale, scanCandidates, ht]
    · rcases hd with hlo | ⟨lo, hlo, hpd⟩
      · cases ht : d.truthy <;>
          simp [load_avellaneda_parameters, hstale, scanCandidates, ht, hlo]
      · cases ht : d.truthy <;>
          simp [load_avellaneda_parameters, hstale, scanCandidates, ht, hlo,
            hpd]
  · intro d lo p ht hlo hpd
    simp [load_avellaneda_parameters, hstale, scanCandidates, ht, hlo, hpd]

/-- Witness for the amended claim C8: a missing first candidate is skipped. -/
theorem candidate_scan_amended_witness :
    load_avellaneda_parameters [FileRead.missing, FileRead.ok goodDoc]
      ⟨none, 0⟩ 0
      = load_avellaneda_parameters [FileRead.ok goodDoc] ⟨none, 0⟩ 0 :=
  (candidate_scan_amended ⟨none, 0⟩ 0 [FileRead.ok goodDoc] (by simp)).1

/-- Claim C9: the result and state effect of the cancel operation are the same
for every order-id argument (the id only reaches the log line), and on
transport success it clears every recorded outstanding order — it is a
cancel-all. -/
theorem cancel_order_id_independent :
    (∀ (o1 o2 : Nat) (ok : Bool) (orders : List Nat),
      (cancel_order o1 ok orders).success = (cancel_order o2 ok orders).success ∧
      (cancel_order o1 ok orders).orders = (cancel_order o2 ok orders).orders) ∧
    (∀ (o : Nat) (orders : List Nat),
      cancel_order o true orders = ⟨true, [], o⟩) := by
  constructor
  · intro o1 o2 ok orders
    cases ok <;> simp [cancel_order]
  · intro o orders
    simp [cancel_order]

/-- Claim C10: the accumulating-side size calculator returns at least
min(0.001, 0.047) = 0.001 on every input, so the Buy-side loop size is
always strictly positive and the zero-size skip branch is unreachable on
the Buy side; the Sell side can yield size 0 (e.g. with no inventory). -/
theorem buy_size_positive :
    (∀ (u : Bool) (c m : Option ℚ),
      1 / 1000 ≤ calculate_dynamic_base_amount u c m) ∧
    (∀ (u : Bool) (c : Option ℚ) (m p : ℚ),
      0 < loop_base_amt Side.buy u c m p) ∧
    loop_base_amt Side.sell true none 100 0 = 0 := by
  have hbase : (1 : ℚ) / 1000 ≤ BASE_AMOUNT := by norm_num [BASE_AMOUNT]
  have h1 : ∀ (u : Bool) (c m : Option ℚ),
      1 / 1000 ≤ calculate_dynamic_base_amount u c m := by
    intro u c m
    cases u
    · simpa [calculate_dynamic_base_amount] using hbase
    · rcases c with _ | cap
      · simpa [calculate_dynamic_base_amount] using hbase
      · by_cases hc : cap ≤ 0
        · simpa [calculate_dynamic_base_amount, hc] using hbase
        · rcases m with _ | mid
          · simpa [calculate_dynamic_base_amount, hc] using hbase
          · by_cases hm : 0 < mid
            · simp only [calculate_dynamic_base_amount, hc, hm]
              simp only [Bool.false_eq_true, if_false, if_pos hm]
              exact le_max_right _ _
            · simpa [calculate_dynamic_base_amount, hc, hm] using hbase
  refine ⟨h1, ?_, ?_⟩
  · intro u c m p
    have := h1 u c (some m)
    have h2 : (0 : ℚ) < 1 / 1000 := by norm_num
    simp only [loop_base_amt, if_pos rfl]
    exact lt_of_lt_of_le h2 this
  · simp [loop_base_amt, sell_base_amt]

end MarketMaker
